import Mathlib

/-!
Verification development for the ChatAnalyzer HTTP service
(src/ChatAnalyzer/index.js).

The service glues an OCR engine and an LLM chat-completion API behind three
POST endpoints (/upload, /chat, /ask).  We embed the request handlers as pure
Lean functions over a small model of JavaScript values; the outcomes of the
external collaborators (the OCR worker, the LLM call, JSON.parse of the
model reply) are inputs to the handler, mirroring the await points in the
source.  Handlers return the HTTP response they send together with
observable effect counts (number of LLM calls issued, number of
worker.terminate() calls).
-/

namespace ChatAnalyzer

/-- Model of a JavaScript value as far as the handlers inspect one.
Strings are sequences of characters. -/
inductive JsValue where
  | undefined : JsValue
  | null : JsValue
  | bool : Bool → JsValue
  | num : Int → JsValue
  | str : List Char → JsValue
  | arr : List JsValue → JsValue
  | obj : List (String × JsValue) → JsValue
deriving Repr

/-- Shorthand for a string value written as a Lean literal. -/
def S (s : String) : JsValue := JsValue.str s.data

/-- JavaScript truthiness, as used by `if (!x)` checks in the handlers. -/
def truthy : JsValue → Bool
  | .undefined => false
  | .null => false
  | .bool b => b
  | .num n => n != 0
  | .str s => !s.isEmpty
  | .arr _ => true
  | .obj _ => true

/-- `undefined` and `null`: property access on these throws a TypeError. -/
def isNullish : JsValue → Bool
  | .undefined => true
  | .null => true
  | _ => false

/-- First binding of a key in an object literal (JS object keys are unique). -/
def lookupField (fs : List (String × JsValue)) (k : String) : JsValue :=
  match fs.find? (fun p => p.1 == k) with
  | some p => p.2
  | none => JsValue.undefined

/-- A thrown JavaScript error: its `name` and `message` properties. -/
structure JsError where
  name : List Char
  message : List Char
deriving Repr

def typeErr (k : String) : JsError :=
  ⟨"TypeError".data, ("Cannot read properties of undefined (reading " ++ k ++ ")").data⟩

def joinErr : JsError :=
  ⟨"TypeError".data, "join is not a function".data⟩

/-- Property access `v.k`: throws on undefined/null receivers, yields the
binding on objects, and `undefined` on (boxed) primitives, which have none of
the properties the handlers read. -/
def getProp (v : JsValue) (k : String) : Except JsError JsValue :=
  match v with
  | .undefined => .error (typeErr k)
  | .null => .error (typeErr k)
  | .obj fs => .ok (lookupField fs k)
  | _ => .ok .undefined

/-- Property access where the receiver is known not to be nullish (the code
guarded it with a truthiness check); total version of `getProp`. -/
def propD (v : JsValue) (k : String) : JsValue :=
  match getProp v k with
  | .ok r => r
  | .error _ => JsValue.undefined

/-- `topics.join(", ")` as far as control flow is concerned: succeeds exactly
when the receiver is an array, otherwise throws a TypeError (undefined, null,
strings, numbers and plain objects have no callable `join`). -/
def joinCheck : JsValue → Except JsError Unit
  | .arr _ => .ok ()
  | _ => .error joinErr

/-- Object spread `{...v}` used at `{...analysis, timestamp}`: objects
contribute their fields, strings and arrays contribute index-keyed entries,
all other primitives contribute nothing. -/
def objSpread : JsValue → List (String × JsValue)
  | .obj fs => fs
  | .str s => (s.enum.map fun p => (toString p.1, JsValue.str [p.2]))
  | .arr es => (es.enum.map fun p => (toString p.1, p.2))
  | _ => []

/-! ### Text metrics (JS `trim` and `split(/\s+/)` semantics) -/

/-- The JavaScript whitespace class: the characters matched by `\s` and
stripped by `String.prototype.trim`. -/
def isJsWs (c : Char) : Bool :=
  let n := c.toNat
  n == 0x09 || n == 0x0A || n == 0x0B || n == 0x0C || n == 0x0D || n == 0x20 ||
  n == 0xA0 || n == 0x1680 || decide (0x2000 ≤ n ∧ n ≤ 0x200A) ||
  n == 0x2028 || n == 0x2029 || n == 0x202F || n == 0x205F || n == 0x3000 ||
  n == 0xFEFF

/-- `s.trim()`: strip leading and trailing JS whitespace. -/
def jsTrim (s : List Char) : List Char :=
  ((s.dropWhile isJsWs).reverse.dropWhile isJsWs).reverse

/-- Splitter state machine for `s.split(/\s+/)`: `inSep` records whether the
previous character was part of a whitespace run (one regex match), `acc` holds
the current field reversed.  A match closes the current field; the field in
progress (possibly empty) is emitted at the end of input. -/
def jsSplitWsGo (inSep : Bool) (acc : List Char) : List Char → List (List Char)
  | [] => [acc.reverse]
  | c :: rest =>
    if isJsWs c then
      if inSep then jsSplitWsGo true acc rest
      else acc.reverse :: jsSplitWsGo true [] rest
    else jsSplitWsGo false (c :: acc) rest

/-- `s.split(/\s+/)`. -/
def jsSplitWs (s : List Char) : List (List Char) :=
  jsSplitWsGo false [] s

/-- The word count the /upload handler reports:
`extractedText.trim().split(/\s+/).length`. -/
def wordCountFn (s : List Char) : Nat :=
  (jsSplitWs (jsTrim s)).length

/-- Specification-side count of whitespace-delimited tokens: the number of
maximal runs of non-whitespace characters.  `inTok` records whether the
previous character was part of a token. -/
def tokenCountAux (inTok : Bool) : List Char → Nat
  | [] => 0
  | c :: rest =>
    if isJsWs c then tokenCountAux false rest
    else (if inTok then 0 else 1) + tokenCountAux true rest

/-- Number of whitespace-delimited tokens of a string (spec wording). -/
def tokenCount (s : List Char) : Nat :=
  tokenCountAux false s

/-! ### HTTP responses -/

/-- An HTTP response: status code and JSON body. -/
structure Response where
  status : Nat
  body : JsValue
deriving Repr

/-! ### /upload handler -/

/-- The multer callback error, if any: a MulterError or another upload error. -/
inductive PreErr where
  | multer (e : JsError)
  | generic (e : JsError)

/-- The handle multer passes on for a stored file. -/
structure FileInfo where
  name : List Char
  path : List Char
  size : Nat

/-- Environment of one /upload execution: outcomes of the await points, in
source order — `fs.promises.access`, `createWorker`, `worker.recognize`, the
OpenAI completion (its reply content on success), `JSON.parse` of that
content, and the wall clock for `new Date().toISOString()`. -/
structure UploadEnv where
  preErr : Option PreErr
  file : Option FileInfo
  access : Except JsError Unit
  createW : Except JsError Unit
  recognize : Except JsError (List Char)
  llm : Except JsError (List Char)
  parse : List Char → Except JsError JsValue
  now : List Char

/-- Result of one /upload execution: the response sent and how many times
`worker.terminate()` ran. -/
structure UploadResult where
  response : Response
  terminations : Nat
deriving Repr

def errDetailObj (e : JsError) (now : List Char) : JsValue :=
  JsValue.obj [("type", .str e.name), ("details", .str e.message),
               ("timestamp", .str now)]

def multerErrBody (e : JsError) (now : List Char) : JsValue :=
  JsValue.obj [("status", S "error"), ("message", S "File upload error"),
    ("error", JsValue.obj [("type", S "MulterError"), ("details", .str e.message),
                           ("timestamp", .str now)])]

def uploadErrBody (e : JsError) (now : List Char) : JsValue :=
  JsValue.obj [("status", S "error"), ("message", .str e.message),
               ("error", errDetailObj e now)]

def noFileBody : JsValue :=
  JsValue.obj [("status", S "error"), ("message", S "No image file provided")]

def noTextBody : JsValue :=
  JsValue.obj [("status", S "error"),
               ("message", S "No text could be extracted from the image")]

def processErrBody (e : JsError) (now : List Char) : JsValue :=
  JsValue.obj [("status", S "error"), ("message", S "Error processing image"),
               ("error", errDetailObj e now)]

def fileObj (f : FileInfo) : JsValue :=
  JsValue.obj [("name", .str f.name), ("path", .str f.path),
               ("size", .num f.size)]

def textExtractionObj (text : List Char) : JsValue :=
  JsValue.obj [("raw", .str text), ("wordCount", .num (wordCountFn text)),
               ("characterCount", .num text.length)]

/-- `{...analysis, timestamp}`: the later `timestamp` key overrides any spread
one; modelled by dropping a spread `timestamp` binding and appending ours. -/
def analysisObj (analysis : JsValue) (now : List Char) : JsValue :=
  JsValue.obj ((objSpread analysis).filter (fun p => p.1 != "timestamp") ++
               [("timestamp", .str now)])

def uploadSuccessData (f : FileInfo) (text : List Char) (analysis : JsValue)
    (now : List Char) : JsValue :=
  JsValue.obj [("file", fileObj f),
               ("textExtraction", textExtractionObj text),
               ("analysis", analysisObj analysis now)]

def uploadSuccessBody (f : FileInfo) (text : List Char) (analysis : JsValue)
    (now : List Char) : JsValue :=
  JsValue.obj [("status", S "success"),
               ("message", S "Image processed successfully"),
               ("data", uploadSuccessData f text analysis now)]

/-- The /upload handler (`app.post("/upload")`).  The multer callback first
dispatches on an upload error and a missing file; the try block then awaits
access, worker creation, OCR, the LLM call and JSON.parse; the catch block
sends the generic 500; the finally block terminates the worker whenever it
was created.  On the empty-trimmed-text branch the code terminates the worker
explicitly and then returns, after which the finally block — seeing a
non-null `worker` — terminates it a second time. -/
def uploadHandler (env : UploadEnv) : UploadResult :=
  match env.preErr with
  | some (.multer e) => ⟨⟨400, multerErrBody e env.now⟩, 0⟩
  | some (.generic e) => ⟨⟨400, uploadErrBody e env.now⟩, 0⟩
  | none =>
    match env.file with
    | none => ⟨⟨400, noFileBody⟩, 0⟩
    | some f =>
      match env.access with
      | .error e => ⟨⟨500, processErrBody e env.now⟩, 0⟩
      | .ok _ =>
        match env.createW with
        | .error e => ⟨⟨500, processErrBody e env.now⟩, 0⟩
        | .ok _ =>
          match env.recognize with
          | .error e => ⟨⟨500, processErrBody e env.now⟩, 1⟩
          | .ok text =>
            if (jsTrim text).isEmpty then
              ⟨⟨400, noTextBody⟩, 2⟩
            else
              match env.llm with
              | .error e => ⟨⟨500, processErrBody e env.now⟩, 1⟩
              | .ok content =>
                match env.parse content with
                | .error e => ⟨⟨500, processErrBody e env.now⟩, 1⟩
                | .ok analysis =>
                  ⟨⟨200, uploadSuccessBody f text analysis env.now⟩, 1⟩

/-! ### /chat handler -/

/-- Environment of one /chat execution: outcome of the OpenAI call (the reply
content on success). -/
structure ChatEnv where
  llm : Except JsError (List Char)

def missingFieldsBody : JsValue :=
  JsValue.obj [("status", S "error"),
               ("message", S "Question and analysis context are required")]

def chatErrBody (e : JsError) : JsValue :=
  JsValue.obj [("status", S "error"),
               ("message", S "Error processing chat request"),
               ("error", .str e.message)]

def chatSuccessBody (content : List Char) : JsValue :=
  JsValue.obj [("status", S "success"), ("response", .str content)]

/-- Evaluation of the /chat system-prompt template: the interpolated
expressions run left to right — `analysisContext.textExtraction.raw`,
`analysisContext.analysis.summary`, `.sentiment`, `.topics.join(", ")`
(unguarded: throws when `topics` is not an array), `.language`. -/
def chatPromptEval (ctx : JsValue) : Except JsError Unit :=
  match getProp ctx "textExtraction" with
  | .error e => .error e
  | .ok te =>
    match getProp te "raw" with
    | .error e => .error e
    | .ok _ =>
      match getProp ctx "analysis" with
      | .error e => .error e
      | .ok an =>
        match getProp an "summary" with
        | .error e => .error e
        | .ok _ =>
          match getProp an "sentiment" with
          | .error e => .error e
          | .ok _ =>
            match getProp an "topics" with
            | .error e => .error e
            | .ok topics =>
              match joinCheck topics with
              | .error e => .error e
              | .ok _ =>
                match getProp an "language" with
                | .error e => .error e
                | .ok _ => .ok ()

/-- The /chat handler (`app.post("/chat")`).  Returns the response together
with the number of LLM calls issued.  A thrown error lands in the catch
block, which sends the 500 with the error message. -/
def chatHandler (body : JsValue) (env : ChatEnv) : Response × Nat :=
  if isNullish body then
    (⟨500, chatErrBody (typeErr "question")⟩, 0)
  else
    let question := propD body "question"
    let ctx := propD body "analysisContext"
    if !(truthy question && truthy ctx) then
      (⟨400, missingFieldsBody⟩, 0)
    else
      match chatPromptEval ctx with
      | .error e => (⟨500, chatErrBody e⟩, 0)
      | .ok _ =>
        match env.llm with
        | .error e => (⟨500, chatErrBody e⟩, 1)
        | .ok content => (⟨200, chatSuccessBody content⟩, 1)

/-! ### /ask handler -/

/-- Environment of one /ask execution: outcome of the OpenAI call,
`JSON.parse` of its reply content, and the wall clock. -/
structure AskEnv where
  llm : Except JsError (List Char)
  parse : List Char → Except JsError JsValue
  now : List Char

def invalidCtxBody : JsValue :=
  JsValue.obj [("status", S "error"),
               ("message", S "Invalid analysis context structure")]

def askErrBody (e : JsError) (now : List Char) : JsValue :=
  JsValue.obj [("status", S "error"), ("message", S "Error processing question"),
    ("error", JsValue.obj [("type", .str e.name), ("message", .str e.message),
                           ("timestamp", .str now)])]

/-- The structural shape check /ask applies to a (truthy) analysis context:
`!analysisContext.textExtraction || !analysisContext.analysis`. -/
def ctxShapeOk (ctx : JsValue) : Bool :=
  truthy (propD ctx "textExtraction") && truthy (propD ctx "analysis")

/-- Evaluation of the /ask system-prompt template.  Every interpolated access
is guarded by `||` fallbacks on receivers already known truthy, so the only
expression that can throw is the guarded
`analysisContext.analysis.topics && analysisContext.analysis.topics.join(", ")`:
`join` is only called when `topics` is truthy, and throws when it is a truthy
non-array. -/
def askPromptEval (ctx : JsValue) : Except JsError Unit :=
  let topics := propD (propD ctx "analysis") "topics"
  if truthy topics then joinCheck topics else .ok ()

def fallbackPrefix : List Char :=
  ("I couldn\x27t format the answer properly, but here\x27s the raw response: ").data

/-- The degraded AnswerResult body sent when JSON.parse of the model reply
fails: the raw content truncated to its first 500 characters with an
explanatory prefix and a trailing ellipsis, empty evidence and relatedTopics,
confidence Low, one canned suggestion. -/
def askFallbackBody (question : JsValue) (content : List Char)
    (now : List Char) : JsValue :=
  JsValue.obj [("status", S "success"), ("timestamp", .str now),
    ("question", question),
    ("analysis", JsValue.obj
      [("answer", .str (fallbackPrefix ++ content.take 500 ++ "...".data)),
       ("evidence", .arr []),
       ("confidence", S "Low"),
       ("relatedTopics", .arr []),
       ("suggestions", .arr [S "Try asking a more specific question"])])]

def askSuccessBody (question analysis : JsValue) (now : List Char) : JsValue :=
  JsValue.obj [("status", S "success"), ("timestamp", .str now),
               ("question", question), ("analysis", analysis)]

/-- The /ask handler (`app.post("/ask")`).  Returns the response together with
the number of LLM calls issued.  After the missing-field and structural
checks it builds the prompt, awaits the completion, and parses the reply
content; a parse failure is caught locally and answered with the 200
fallback, any other thrown error lands in the outer catch (500). -/
def askHandler (body : JsValue) (env : AskEnv) : Response × Nat :=
  if isNullish body then
    (⟨500, askErrBody (typeErr "question") env.now⟩, 0)
  else
    let question := propD body "question"
    let ctx := propD body "analysisContext"
    if !(truthy question && truthy ctx) then
      (⟨400, missingFieldsBody⟩, 0)
    else if !(ctxShapeOk ctx) then
      (⟨400, invalidCtxBody⟩, 0)
    else
      match askPromptEval ctx with
      | .error e => (⟨500, askErrBody e env.now⟩, 0)
      | .ok _ =>
        match env.llm with
        | .error e => (⟨500, askErrBody e env.now⟩, 1)
        | .ok content =>
          match env.parse content with
          | .error _ => (⟨200, askFallbackBody question content env.now⟩, 1)
          | .ok analysis => (⟨200, askSuccessBody question analysis env.now⟩, 1)

/-! ### Lemmas about the text metrics -/

theorem tokenCountAux_all_ws {w : List Char} (hw : ∀ c ∈ w, isJsWs c = true) :
    ∀ b, tokenCountAux b w = 0 := by
  induction w with
  | nil => intro b; rfl
  | cons c rest ih =>
    intro b
    have hc := hw c (List.mem_cons_self c rest)
    simp [tokenCountAux, hc, ih fun d hd => hw d (List.mem_cons_of_mem c hd)]

theorem tokenCountAux_append_ws {w : List Char} (hw : ∀ c ∈ w, isJsWs c = true)
    (t : List Char) : ∀ b, tokenCountAux b (t ++ w) = tokenCountAux b t := by
  induction t with
  | nil => intro b; simpa using tokenCountAux_all_ws hw b
  | cons c rest ih =>
    intro b
    cases hc : isJsWs c <;> simp [tokenCountAux, hc, ih]

theorem tokenCount_dropWhile_ws (s : List Char) :
    tokenCountAux false (s.dropWhile isJsWs) = tokenCountAux false s := by
  induction s with
  | nil => rfl
  | cons c rest ih =>
    cases hc : isJsWs c
    · simp [List.dropWhile_cons, hc]
    · simpa [List.dropWhile_cons, hc, tokenCountAux] using ih

theorem jsTrim_decomp (s : List Char) :
    s.dropWhile isJsWs =
      jsTrim s ++ ((s.dropWhile isJsWs).reverse.takeWhile isJsWs).reverse ∧
    ∀ c ∈ ((s.dropWhile isJsWs).reverse.takeWhile isJsWs).reverse,
      isJsWs c = true := by
  constructor
  · rw [jsTrim, ← List.reverse_append, List.takeWhile_append_dropWhile,
        List.reverse_reverse]
  · intro c hc
    exact List.mem_takeWhile_imp (List.mem_reverse.mp hc)

theorem dropWhile_head_false {p : Char → Bool} :
    ∀ {l t : List Char} {c : Char}, List.dropWhile p l = c :: t → p c = false := by
  intro l
  induction l with
  | nil => intro t c h; simp [List.dropWhile] at h
  | cons a rest ih =>
    intro t c h
    cases ha : p a
    · rw [List.dropWhile_cons_of_neg (by simp [ha])] at h
      injection h with h1 _
      rw [← h1]; exact ha
    · rw [List.dropWhile_cons_of_pos ha] at h
      exact ih h

theorem jsTrim_head_false {s t : List Char} {c : Char} (h : jsTrim s = c :: t) :
    isJsWs c = false := by
  obtain ⟨heq, -⟩ := jsTrim_decomp s
  rw [h] at heq
  exact dropWhile_head_false (by simpa using heq)

/-- The string has no trailing JS whitespace. -/
def noTrailWs (s : List Char) : Prop :=
  ∀ c, s.getLast? = some c → isJsWs c = false

theorem jsTrim_noTrail (s : List Char) : noTrailWs (jsTrim s) := by
  intro c hc
  have hc2 : ((s.dropWhile isJsWs).reverse.dropWhile isJsWs).head? = some c := by
    simpa [jsTrim] using hc
  cases hd : (s.dropWhile isJsWs).reverse.dropWhile isJsWs with
  | nil => rw [hd] at hc2; simp at hc2
  | cons a t =>
    rw [hd] at hc2
    simp only [List.head?_cons, Option.some.injEq] at hc2
    rw [← hc2]
    exact dropWhile_head_false hd

/-- Field count of the splitter against the token count, for strings with no
trailing whitespace: reading in field state the machine will emit one more
field than the tokens still to come begin; reading in separator state (on a
nonempty rest) the counts agree. -/
theorem splitGo_length : ∀ (s : List Char), noTrailWs s →
    (∀ acc, (jsSplitWsGo false acc s).length = 1 + tokenCountAux true s) ∧
    (s ≠ [] → ∀ acc, (jsSplitWsGo true acc s).length = tokenCountAux false s) := by
  intro s
  induction s with
  | nil =>
    intro _
    exact ⟨fun acc => by simp [jsSplitWsGo, tokenCountAux],
           fun h => absurd rfl h⟩
  | cons c rest ih =>
    intro hs
    have hrest : rest ≠ [] → noTrailWs rest := by
      intro hne d hd
      apply hs d
      cases rest with
      | nil => exact absurd rfl hne
      | cons b l => rw [List.getLast?_cons_cons]; exact hd
    cases hc : isJsWs c
    · by_cases hr : rest = []
      · subst hr
        constructor
        · intro acc; simp [jsSplitWsGo, tokenCountAux, hc]
        · intro _ acc; simp [jsSplitWsGo, tokenCountAux, hc]
      · obtain ⟨ih1, -⟩ := ih (hrest hr)
        constructor
        · intro acc; simp [jsSplitWsGo, tokenCountAux, hc, ih1]
        · intro _ acc; simp [jsSplitWsGo, tokenCountAux, hc, ih1]
    · have hr : rest ≠ [] := by
        intro h; subst h
        have := hs c (by simp)
        simp [hc] at this
      obtain ⟨-, ih2⟩ := ih (hrest hr)
      constructor
      · intro acc; simp [jsSplitWsGo, tokenCountAux, hc, ih2 hr, Nat.add_comm]
      · intro _ acc; simp [jsSplitWsGo, tokenCountAux, hc, ih2 hr]

/-- The reported word count agrees with the number of whitespace-delimited
tokens whenever the trimmed text is nonempty (the only case that reaches the
metrics in /upload). -/
theorem wordCount_eq_tokenCount {s : List Char} (h : jsTrim s ≠ []) :
    wordCountFn s = tokenCount s := by
  obtain ⟨heq, hw⟩ := jsTrim_decomp s
  cases htr : jsTrim s with
  | nil => exact absurd htr h
  | cons c t =>
    have hc : isJsWs c = false := jsTrim_head_false htr
    have hnt : noTrailWs (jsTrim s) := jsTrim_noTrail s
    rw [htr] at hnt
    obtain ⟨h1, -⟩ := splitGo_length (c :: t) hnt
    have e1 : wordCountFn s = 1 + tokenCountAux true (c :: t) := by
      rw [wordCountFn, jsSplitWs, htr]; exact h1 []
    have e2 : tokenCount s = tokenCountAux false (c :: t) := by
      rw [tokenCount, ← tokenCount_dropWhile_ws s, heq, htr]
      exact tokenCountAux_append_ws hw (c :: t) false
    rw [e1, e2]
    simp [tokenCountAux, hc]

theorem jsSplitWsGo_ne_nil : ∀ (s : List Char) (b : Bool) (acc : List Char),
    jsSplitWsGo b acc s ≠ [] := by
  intro s
  induction s with
  | nil => intro b acc; simp [jsSplitWsGo]
  | cons c rest ih =>
    intro b acc
    cases hc : isJsWs c
    · simpa [jsSplitWsGo, hc] using ih false (c :: acc)
    · cases b
      · simp [jsSplitWsGo, hc]
      · simpa [jsSplitWsGo, hc] using ih true acc

theorem wordCountFn_pos (s : List Char) : 1 ≤ wordCountFn s := by
  have h := jsSplitWsGo_ne_nil (jsTrim s) false []
  rw [wordCountFn, jsSplitWs]
  exact List.length_pos.mpr h

/-! ### Handler evaluation lemmas -/

/-- On the fully successful /upload path the handler sends the 200 success
body and the worker is terminated exactly once (in the finally block). -/
theorem uploadHandler_success (env : UploadEnv) (f : FileInfo)
    (text content : List Char) (analysis : JsValue)
    (hpre : env.preErr = none) (hfile : env.file = some f)
    (hacc : env.access = Except.ok ()) (hcw : env.createW = Except.ok ())
    (hrec : env.recognize = Except.ok text) (htext : jsTrim text ≠ [])
    (hllm : env.llm = Except.ok content)
    (hparse : env.parse content = Except.ok analysis) :
    uploadHandler env = ⟨⟨200, uploadSuccessBody f text analysis env.now⟩, 1⟩ := by
  have hni : (jsTrim text).isEmpty = false := by
    cases h : jsTrim text
    · exact absurd h htext
    · rfl
  simp [uploadHandler, hpre, hfile, hacc, hcw, hrec, hni, hllm, hparse]

/-! ### Claims -/

/-- C1: whenever the model reply content of /ask fails to parse as JSON, the
endpoint still answers 200 success, with an AnswerResult whose answer is the
explanatory prefix followed by the first 500 characters of the raw reply,
empty evidence and relatedTopics, confidence Low, and exactly one canned
suggestion to rephrase; the parse failure never becomes an error response. -/
theorem ask_parse_failure_degraded_success
    (body : JsValue) (env : AskEnv) (content : List Char) (e : JsError)
    (hb : isNullish body = false)
    (hq : truthy (propD body "question") = true)
    (hctx : truthy (propD body "analysisContext") = true)
    (hshape : ctxShapeOk (propD body "analysisContext") = true)
    (hp : askPromptEval (propD body "analysisContext") = Except.ok ())
    (hllm : env.llm = Except.ok content)
    (hparse : env.parse content = Except.error e) :
    askHandler body env =
      (⟨200, JsValue.obj [("status", S "success"), ("timestamp", .str env.now),
        ("question", propD body "question"),
        ("analysis", JsValue.obj
          [("answer", .str (fallbackPrefix ++ content.take 500 ++ "...".data)),
           ("evidence", .arr []),
           ("confidence", S "Low"),
           ("relatedTopics", .arr []),
           ("suggestions", .arr [S "Try asking a more specific question"])])]⟩,
       1) := by
  simp [askHandler, askFallbackBody, hb, hq, hctx, hshape, hp, hllm, hparse]

def askC1Body : JsValue :=
  JsValue.obj [("question", S "What is it about"),
    ("analysisContext", JsValue.obj
      [("textExtraction", JsValue.obj [("raw", S "hello world")]),
       ("analysis", JsValue.obj [("topics", JsValue.arr [S "greetings"])])])]

def askC1Env : AskEnv :=
  ⟨Except.ok "This text is a greeting.".data,
   fun _ => Except.error ⟨"SyntaxError".data, "Unexpected token T in JSON".data⟩,
   "2026-10-11T00:00:00.000Z".data⟩

theorem ask_parse_failure_degraded_success_witness :
    askC1Env.parse "This text is a greeting.".data =
      Except.error ⟨"SyntaxError".data, "Unexpected token T in JSON".data⟩ ∧
    askHandler askC1Body askC1Env =
      (⟨200, JsValue.obj [("status", S "success"),
        ("timestamp", .str "2026-10-11T00:00:00.000Z".data),
        ("question", S "What is it about"),
        ("analysis", JsValue.obj
          [("answer", .str (fallbackPrefix ++
              "This text is a greeting.".data.take 500 ++ "...".data)),
           ("evidence", .arr []),
           ("confidence", S "Low"),
           ("relatedTopics", .arr []),
           ("suggestions", .arr [S "Try asking a more specific question"])])]⟩,
       1) :=
  ⟨rfl, ask_parse_failure_degraded_success askC1Body askC1Env
    "This text is a greeting.".data
    ⟨"SyntaxError".data, "Unexpected token T in JSON".data⟩
    rfl rfl rfl rfl rfl rfl rfl⟩

/-- C2: the claim asserts the OCR worker is terminated exactly once on every
exit path, but on the empty-extracted-text path the code terminates the
worker explicitly (line 138) and then the finally block, seeing a non-null
worker, terminates it a second time: with whitespace-only OCR output the
handler performs two terminations. -/
theorem upload_empty_text_terminates_twice :
    uploadHandler ⟨none, some ⟨"chat.png".data, "uploads/1-chat.png".data, 2048⟩,
        Except.ok (), Except.ok (), Except.ok "  \n ".data,
        Except.ok "unused".data, fun _ => Except.ok (JsValue.obj []),
        "2026-10-11T00:00:00.000Z".data⟩ =
      ⟨⟨400, noTextBody⟩, 2⟩ := rfl

/-- C3 counterexample: a context that contains a (truthy) analysis sub-object
and merely lacks textExtraction — so it does not lack both — is nevertheless
rejected with the 400 invalid-context response, refuting the claim that the
rejection happens exactly when both sub-objects are lacking. -/
theorem ask_invalid_ctx_not_only_when_both_missing :
    askHandler (JsValue.obj [("question", S "q"),
        ("analysisContext", JsValue.obj [("analysis", JsValue.obj [])])])
        ⟨Except.ok "r".data, fun _ => Except.ok (JsValue.obj []), "t".data⟩ =
      (⟨400, invalidCtxBody⟩, 0) ∧
    truthy (propD (JsValue.obj [("analysis", JsValue.obj [])]) "analysis") =
      true :=
  ⟨rfl, rfl⟩

theorem askHandler_shape_ok_no_400 (body : JsValue) (env : AskEnv)
    (hb : isNullish body = false)
    (hq : truthy (propD body "question") = true)
    (hctx : truthy (propD body "analysisContext") = true)
    (hsh : ctxShapeOk (propD body "analysisContext") = true) :
    (askHandler body env).1.status ≠ 400 := by
  cases hpe : askPromptEval (propD body "analysisContext") with
  | error e => simp [askHandler, hb, hq, hctx, hsh, hpe]
  | ok u =>
    cases hllm : env.llm with
    | error e => simp [askHandler, hb, hq, hctx, hsh, hpe, hllm]
    | ok content =>
      cases hparse : env.parse content with
      | error e => simp [askHandler, hb, hq, hctx, hsh, hpe, hllm, hparse]
      | ok analysis => simp [askHandler, hb, hq, hctx, hsh, hpe, hllm, hparse]

/-- C3 amended: for an /ask request with question and analysisContext present
(truthy), the endpoint answers the 400 invalid-context response exactly when
the analysisContext lacks the text-extraction sub-object or lacks the
analysis sub-object (at least one of the two; a structural shape check only,
no deep validation of the sub-objects). -/
theorem ask_invalid_ctx_iff_missing_either
    (body : JsValue) (env : AskEnv)
    (hb : isNullish body = false)
    (hq : truthy (propD body "question") = true)
    (hctx : truthy (propD body "analysisContext") = true) :
    (askHandler body env).1 = ⟨400, invalidCtxBody⟩ ↔
      (truthy (propD (propD body "analysisContext") "textExtraction") = false ∨
       truthy (propD (propD body "analysisContext") "analysis") = false) := by
  cases hte : truthy (propD (propD body "analysisContext") "textExtraction") <;>
    cases han : truthy (propD (propD body "analysisContext") "analysis")
  · simp [askHandler, ctxShapeOk, hb, hq, hctx, hte, han]
  · simp [askHandler, ctxShapeOk, hb, hq, hctx, hte, han]
  · simp [askHandler, ctxShapeOk, hb, hq, hctx, hte, han]
  · have hsh : ctxShapeOk (propD body "analysisContext") = true := by
      simp [ctxShapeOk, hte, han]
    have h400 := askHandler_shape_ok_no_400 body env hb hq hctx hsh
    constructor
    · intro hcontra
      exact absurd (by rw [hcontra]) h400
    · intro hcontra
      rcases hcontra with hcontra | hcontra <;> simp at hcontra

def askC3Body : JsValue :=
  JsValue.obj [("question", S "q"),
    ("analysisContext", JsValue.obj [("analysis", JsValue.obj [])])]

def askC3Env : AskEnv :=
  ⟨Except.ok "r".data, fun _ => Except.ok (JsValue.obj []), "t".data⟩

theorem ask_invalid_ctx_iff_missing_either_witness :
    truthy (propD askC3Body "question") = true ∧
    (askHandler askC3Body askC3Env).1 = ⟨400, invalidCtxBody⟩ :=
  ⟨rfl, (ask_invalid_ctx_iff_missing_either askC3Body askC3Env rfl rfl rfl).mpr
    (Or.inl rfl)⟩

/-- C4: on every successful /upload response the reported wordCount is the
number of whitespace-delimited tokens of the raw extracted text and the
reported characterCount is its string length — both functions of the raw
text alone. -/
theorem upload_metrics_deterministic
    (env : UploadEnv) (f : FileInfo) (text content : List Char)
    (analysis : JsValue)
    (hpre : env.preErr = none) (hfile : env.file = some f)
    (hacc : env.access = Except.ok ()) (hcw : env.createW = Except.ok ())
    (hrec : env.recognize = Except.ok text) (htext : jsTrim text ≠ [])
    (hllm : env.llm = Except.ok content)
    (hparse : env.parse content = Except.ok analysis) :
    propD (propD (uploadHandler env).response.body "data") "textExtraction" =
      JsValue.obj [("raw", .str text), ("wordCount", .num (tokenCount text)),
                   ("characterCount", .num text.length)] := by
  rw [uploadHandler_success env f text content analysis hpre hfile hacc hcw
      hrec htext hllm hparse]
  have h2 : propD (propD (uploadSuccessBody f text analysis env.now) "data")
      "textExtraction" = textExtractionObj text := rfl
  show propD (propD (uploadSuccessBody f text analysis env.now) "data")
      "textExtraction" = _
  rw [h2, textExtractionObj, wordCount_eq_tokenCount htext]

def uploadC4Env : UploadEnv :=
  ⟨none, some ⟨"a.png".data, "uploads/2-a.png".data, 512⟩,
   Except.ok (), Except.ok (), Except.ok "hi there".data,
   Except.ok "{}".data, fun _ => Except.ok (JsValue.obj []), "t".data⟩

theorem upload_metrics_deterministic_witness :
    jsTrim "hi there".data ≠ [] ∧
    propD (propD (uploadHandler uploadC4Env).response.body "data")
        "textExtraction" =
      JsValue.obj [("raw", .str "hi there".data), ("wordCount", .num 2),
                   ("characterCount", .num 8)] :=
  ⟨by decide,
   upload_metrics_deterministic uploadC4Env
     ⟨"a.png".data, "uploads/2-a.png".data, 512⟩ "hi there".data "{}".data
     (JsValue.obj []) rfl rfl rfl rfl rfl (by decide) rfl rfl⟩

/-- C5: whenever the OCR engine returns text that is empty after trimming,
/upload answers 400 with exactly the message "No text could be extracted from
the image" and nothing else in the body (no textExtraction, no analysis);
an engine error instead yields the distinct 500 processing response. -/
theorem upload_no_text_400
    (env : UploadEnv) (f : FileInfo) (text : List Char)
    (hpre : env.preErr = none) (hfile : env.file = some f)
    (hacc : env.access = Except.ok ()) (hcw : env.createW = Except.ok ())
    (hrec : env.recognize = Except.ok text) (htext : jsTrim text = []) :
    (uploadHandler env).response =
      ⟨400, JsValue.obj [("status", S "error"),
        ("message", S "No text could be extracted from the image")]⟩ ∧
    ∀ e : JsError,
      (uploadHandler ⟨none, some f, Except.ok (), Except.ok (),
          Except.error e, env.llm, env.parse, env.now⟩).response =
        ⟨500, processErrBody e env.now⟩ := by
  constructor
  · have hni : (jsTrim text).isEmpty = true := by rw [htext]; rfl
    simp [uploadHandler, hpre, hfile, hacc, hcw, hrec, hni, noTextBody]
  · intro e
    rfl

def uploadC5Env : UploadEnv :=
  ⟨none, some ⟨"blank.png".data, "uploads/3-blank.png".data, 100⟩,
   Except.ok (), Except.ok (), Except.ok "  \n\t ".data,
   Except.ok "{}".data, fun _ => Except.ok (JsValue.obj []), "t".data⟩

theorem upload_no_text_400_witness :
    jsTrim "  \n\t ".data = [] ∧
    (uploadHandler uploadC5Env).response =
      ⟨400, JsValue.obj [("status", S "error"),
        ("message", S "No text could be extracted from the image")]⟩ :=
  ⟨by decide,
   (upload_no_text_400 uploadC5Env
     ⟨"blank.png".data, "uploads/3-blank.png".data, 100⟩ "  \n\t ".data
     rfl rfl rfl rfl rfl (by decide)).1⟩

/-- C6: in /upload, a JSON.parse failure on the LLM reply content is not
recovered: the handler answers the generic 500 processing response (message
"Error processing image"), whereas /ask in the same situation (reply received
but unparseable) still answers 200. -/
theorem upload_parse_failure_not_recovered
    (env : UploadEnv) (f : FileInfo) (text content : List Char) (e : JsError)
    (hpre : env.preErr = none) (hfile : env.file = some f)
    (hacc : env.access = Except.ok ()) (hcw : env.createW = Except.ok ())
    (hrec : env.recognize = Except.ok text) (htext : jsTrim text ≠ [])
    (hllm : env.llm = Except.ok content)
    (hparse : env.parse content = Except.error e) :
    (uploadHandler env).response = ⟨500, processErrBody e env.now⟩ ∧
    propD (processErrBody e env.now) "message" = S "Error processing image" ∧
    (∀ (abody : JsValue) (aenv : AskEnv) (acontent : List Char) (ae : JsError),
      isNullish abody = false →
      truthy (propD abody "question") = true →
      truthy (propD abody "analysisContext") = true →
      ctxShapeOk (propD abody "analysisContext") = true →
      askPromptEval (propD abody "analysisContext") = Except.ok () →
      aenv.llm = Except.ok acontent →
      aenv.parse acontent = Except.error ae →
      (askHandler abody aenv).1.status = 200) := by
  refine ⟨?_, rfl, ?_⟩
  · have hni : (jsTrim text).isEmpty = false := by
      cases h : jsTrim text
      · exact absurd h htext
      · rfl
    simp [uploadHandler, hpre, hfile, hacc, hcw, hrec, hni, hllm, hparse]
  · intro abody aenv acontent ae hb hq hctx hsh hpe hal hap
    simp [askHandler, hb, hq, hctx, hsh, hpe, hal, hap]

def uploadC6Env : UploadEnv :=
  ⟨none, some ⟨"b.png".data, "uploads/4-b.png".data, 256⟩,
   Except.ok (), Except.ok (), Except.ok "some words".data,
   Except.ok "prose, not JSON".data,
   fun _ => Except.error ⟨"SyntaxError".data, "Unexpected token p".data⟩,
   "t".data⟩

theorem upload_parse_failure_not_recovered_witness :
    uploadC6Env.parse "prose, not JSON".data =
      Except.error ⟨"SyntaxError".data, "Unexpected token p".data⟩ ∧
    (uploadHandler uploadC6Env).response =
      ⟨500, processErrBody ⟨"SyntaxError".data, "Unexpected token p".data⟩
        "t".data⟩ :=
  ⟨rfl,
   (upload_parse_failure_not_recovered uploadC6Env
     ⟨"b.png".data, "uploads/4-b.png".data, 256⟩ "some words".data
     "prose, not JSON".data ⟨"SyntaxError".data, "Unexpected token p".data⟩
     rfl rfl rfl rfl rfl (by decide) rfl rfl).1⟩

/-- C7: for any request body (object) in which the question field or the
analysisContext field is omitted, both /chat and /ask answer 400 with the
missing-fields message and issue no LLM call. -/
theorem chat_ask_missing_field_400
    (fs : List (String × JsValue)) (cenv : ChatEnv) (aenv : AskEnv)
    (h : fs.find? (fun p => p.1 == "question") = none ∨
         fs.find? (fun p => p.1 == "analysisContext") = none) :
    chatHandler (JsValue.obj fs) cenv = (⟨400, missingFieldsBody⟩, 0) ∧
    askHandler (JsValue.obj fs) aenv = (⟨400, missingFieldsBody⟩, 0) := by
  have hq : truthy (propD (JsValue.obj fs) "question") = false ∨
      truthy (propD (JsValue.obj fs) "analysisContext") = false := by
    rcases h with h | h
    · left; simp [propD, getProp, lookupField, h, truthy]
    · right; simp [propD, getProp, lookupField, h, truthy]
  rcases hq with hh | hh
  · exact ⟨by simp [chatHandler, isNullish, hh],
           by simp [askHandler, isNullish, hh]⟩
  · exact ⟨by simp [chatHandler, isNullish, hh],
           by simp [askHandler, isNullish, hh]⟩

def missingC7Fields : List (String × JsValue) :=
  [("analysisContext", JsValue.obj
    [("textExtraction", JsValue.obj []), ("analysis", JsValue.obj [])])]

def chatC7Env : ChatEnv := ⟨Except.ok "reply".data⟩

def askC7Env : AskEnv :=
  ⟨Except.ok "reply".data, fun _ => Except.ok (JsValue.obj []), "t".data⟩

theorem chat_ask_missing_field_400_witness :
    missingC7Fields.find? (fun p => p.1 == "question") = none ∧
    (chatHandler (JsValue.obj missingC7Fields) chatC7Env =
        (⟨400, missingFieldsBody⟩, 0) ∧
     askHandler (JsValue.obj missingC7Fields) askC7Env =
        (⟨400, missingFieldsBody⟩, 0)) :=
  ⟨rfl, chat_ask_missing_field_400 missingC7Fields chatC7Env askC7Env
    (Or.inl rfl)⟩

/-- C8: the data object of any successful /upload response, resent unmodified
as the analysisContext of an /ask request (with any truthy question), passes
the structural shape check and is never rejected with the invalid-context or
the missing-fields 400 response. -/
theorem upload_roundtrip_ask_accepts
    (env : UploadEnv) (f : FileInfo) (text content : List Char)
    (analysis : JsValue) (q : JsValue) (aenv : AskEnv) (data : JsValue)
    (hpre : env.preErr = none) (hfile : env.file = some f)
    (hacc : env.access = Except.ok ()) (hcw : env.createW = Except.ok ())
    (hrec : env.recognize = Except.ok text) (htext : jsTrim text ≠ [])
    (hllm : env.llm = Except.ok content)
    (hparse : env.parse content = Except.ok analysis)
    (hq : truthy q = true)
    (hdata : data = propD (uploadHandler env).response.body "data") :
    ctxShapeOk data = true ∧
    (askHandler (JsValue.obj [("question", q), ("analysisContext", data)])
        aenv).1 ≠ ⟨400, invalidCtxBody⟩ ∧
    (askHandler (JsValue.obj [("question", q), ("analysisContext", data)])
        aenv).1 ≠ ⟨400, missingFieldsBody⟩ := by
  have hd : propD (uploadHandler env).response.body "data" =
      uploadSuccessData f text analysis env.now := by
    rw [uploadHandler_success env f text content analysis hpre hfile hacc hcw
        hrec htext hllm hparse]
    rfl
  subst hdata
  rw [hd]
  have h400 := askHandler_shape_ok_no_400
    (JsValue.obj [("question", q),
      ("analysisContext", uploadSuccessData f text analysis env.now)]) aenv
    rfl hq rfl rfl
  exact ⟨rfl, fun hcontra => h400 (by rw [hcontra]),
         fun hcontra => h400 (by rw [hcontra])⟩

def uploadC8Env : UploadEnv :=
  ⟨none, some ⟨"c.png".data, "uploads/5-c.png".data, 64⟩,
   Except.ok (), Except.ok (), Except.ok "round trip".data,
   Except.ok "{}".data,
   fun _ => Except.ok (JsValue.obj [("summary", S "s")]), "t".data⟩

def askC8Env : AskEnv :=
  ⟨Except.ok "reply".data, fun _ => Except.ok (JsValue.obj []), "t".data⟩

theorem upload_roundtrip_ask_accepts_witness :
    truthy (S "why") = true ∧
    ctxShapeOk (propD (uploadHandler uploadC8Env).response.body "data") =
      true :=
  ⟨rfl,
   (upload_roundtrip_ask_accepts uploadC8Env
     ⟨"c.png".data, "uploads/5-c.png".data, 64⟩ "round trip".data "{}".data
     (JsValue.obj [("summary", S "s")]) (S "why") askC8Env
     (propD (uploadHandler uploadC8Env).response.body "data")
     rfl rfl rfl rfl rfl (by decide) rfl rfl rfl rfl).1⟩

/-- C9: /chat performs no structural validation of a present analysisContext:
when the context (an object) lacks the textExtraction or the analysis
sub-object, the prompt interpolation throws, no LLM call is issued, and the
caller gets the generic 500 chat error — not a 400 validation response. -/
theorem chat_unvalidated_ctx_500
    (q : JsValue) (ctxFs : List (String × JsValue)) (cenv : ChatEnv)
    (r : Response × Nat)
    (hq : truthy q = true)
    (h : ctxFs.find? (fun p => p.1 == "textExtraction") = none ∨
         ctxFs.find? (fun p => p.1 == "analysis") = none)
    (hr : r = chatHandler (JsValue.obj [("question", q),
            ("analysisContext", JsValue.obj ctxFs)]) cenv) :
    r.1.status = 500 ∧ r.2 = 0 ∧
    propD r.1.body "message" = S "Error processing chat request" := by
  subst hr
  have hpe : ∃ e, chatPromptEval (JsValue.obj ctxFs) = Except.error e := by
    rcases h with h | h
    · have hte : lookupField ctxFs "textExtraction" = JsValue.undefined := by
        simp [lookupField, h]
      exact ⟨typeErr "raw", by simp [chatPromptEval, getProp, hte]⟩
    · have han : lookupField ctxFs "analysis" = JsValue.undefined := by
        simp [lookupField, h]
      cases hval : lookupField ctxFs "textExtraction" with
      | undefined =>
        exact ⟨typeErr "raw", by simp [chatPromptEval, getProp, hval, han]⟩
      | null =>
        exact ⟨typeErr "raw", by simp [chatPromptEval, getProp, hval, han]⟩
      | bool b =>
        exact ⟨typeErr "summary", by simp [chatPromptEval, getProp, hval, han]⟩
      | num n =>
        exact ⟨typeErr "summary", by simp [chatPromptEval, getProp, hval, han]⟩
      | str s2 =>
        exact ⟨typeErr "summary", by simp [chatPromptEval, getProp, hval, han]⟩
      | arr es =>
        exact ⟨typeErr "summary", by simp [chatPromptEval, getProp, hval, han]⟩
      | obj ofs =>
        exact ⟨typeErr "summary", by simp [chatPromptEval, getProp, hval, han]⟩
  obtain ⟨e, hpe⟩ := hpe
  have hb0 : propD (JsValue.obj [("question", q),
      ("analysisContext", JsValue.obj ctxFs)]) "question" = q := rfl
  have hb1 : propD (JsValue.obj [("question", q),
      ("analysisContext", JsValue.obj ctxFs)]) "analysisContext" =
      JsValue.obj ctxFs := rfl
  have hm : propD (chatErrBody e) "message" =
      S "Error processing chat request" := rfl
  have hctx2 : truthy (JsValue.obj ctxFs) = true := rfl
  simp [chatHandler, isNullish, hb0, hb1, hq, hctx2, hpe, hm]

def chatC9Fields : List (String × JsValue) := [("analysis", JsValue.obj [])]

def chatC9Env : ChatEnv := ⟨Except.ok "reply".data⟩

theorem chat_unvalidated_ctx_500_witness :
    chatC9Fields.find? (fun p => p.1 == "textExtraction") = none ∧
    ((chatHandler (JsValue.obj [("question", S "why"),
        ("analysisContext", JsValue.obj chatC9Fields)]) chatC9Env).1.status =
       500 ∧
     (chatHandler (JsValue.obj [("question", S "why"),
        ("analysisContext", JsValue.obj chatC9Fields)]) chatC9Env).2 = 0 ∧
     propD (chatHandler (JsValue.obj [("question", S "why"),
        ("analysisContext", JsValue.obj chatC9Fields)]) chatC9Env).1.body
       "message" = S "Error processing chat request") :=
  ⟨rfl, chat_unvalidated_ctx_500 (S "why") chatC9Fields chatC9Env _
    rfl (Or.inl rfl) rfl⟩

/-- C10: every successful /upload response reports wordCount at least 1 and
characterCount at least 1, since raw text that trims to empty is rejected
with 400 before the metrics are computed. -/
theorem upload_counts_positive
    (env : UploadEnv) (f : FileInfo) (text content : List Char)
    (analysis : JsValue)
    (hpre : env.preErr = none) (hfile : env.file = some f)
    (hacc : env.access = Except.ok ()) (hcw : env.createW = Except.ok ())
    (hrec : env.recognize = Except.ok text) (htext : jsTrim text ≠ [])
    (hllm : env.llm = Except.ok content)
    (hparse : env.parse content = Except.ok analysis) :
    propD (propD (uploadHandler env).response.body "data") "textExtraction" =
      JsValue.obj [("raw", .str text), ("wordCount", .num (wordCountFn text)),
                   ("characterCount", .num text.length)] ∧
    1 ≤ wordCountFn text ∧ 1 ≤ text.length := by
  refine ⟨?_, wordCountFn_pos text, ?_⟩
  · rw [uploadHandler_success env f text content analysis hpre hfile hacc hcw
        hrec htext hllm hparse]
    rfl
  · have hne : text ≠ [] := by
      intro h2
      apply htext
      rw [h2]
      rfl
    exact List.length_pos.mpr hne

def uploadC10Env : UploadEnv :=
  ⟨none, some ⟨"d.png".data, "uploads/6-d.png".data, 32⟩,
   Except.ok (), Except.ok (), Except.ok "ok".data,
   Except.ok "{}".data, fun _ => Except.ok (JsValue.obj []), "t".data⟩

theorem upload_counts_positive_witness :
    jsTrim "ok".data ≠ [] ∧
    (1 ≤ wordCountFn "ok".data ∧ 1 ≤ "ok".data.length) :=
  ⟨by decide,
   (upload_counts_positive uploadC10Env
     ⟨"d.png".data, "uploads/6-d.png".data, 32⟩ "ok".data "{}".data
     (JsValue.obj []) rfl rfl rfl rfl rfl (by decide) rfl rfl).2⟩

end ChatAnalyzer
